import Mathlib

/-!
Verification development for the hooks-store event pipeline
(ingest gateway → transform engine → storage adapter → migration
coordinator).

The Go source is shallowly embedded:

* JSON value trees (`map[string]interface{}` after `json.Unmarshal`)
  become the inductive `JValue`; Go maps become association lists with
  distinct keys, and lookup is first-match.
* JSON numbers (Go `float64`) are modelled as rationals; the Go
  conversion `int64(v)` is rational truncation toward zero
  (overflow of the 64-bit range is outside the modelled domain).
* The generated UUID and the wall-clock time are passed in as explicit
  parameters, making every function pure.
* `time.Time` is modelled by its instant (epoch seconds plus
  nanoseconds); the millisecond-precision UTC rendering produced by
  `Format("2006-01-02T15:04:05.000Z")` is modelled by the pair
  (seconds, milliseconds) it displays, which determines the rendered
  text injectively.
-/

/-- A JSON value as produced by Go's `json.Unmarshal` into
`interface{}`: string, number (`float64`), bool, null, object
(`map[string]interface{}`), or array (`[]interface{}`).
Objects are association lists with pairwise-distinct keys. -/
inductive JValue where
  | str (s : String)
  | num (q : ℚ)
  | bool (b : Bool)
  | null
  | obj (fields : List (String × JValue))
  | arr (elems : List JValue)

/-- A Go `map[string]interface{}` (a JSON object); `[]` doubles for the
nil map, which behaves identically under lookup. -/
abbrev JObj := List (String × JValue)

/-- Go map lookup `data[key]`: the value stored at `key`, if any. -/
def mapGet (data : JObj) (key : String) : Option JValue :=
  (data.find? (fun p => p.1 == key)).map (fun p => p.2)

/-- Function extractString from transform.go: returns the value at `key` when
it is a string, absent otherwise (Go's `("", false)`). -/
def extractString (data : JObj) (key : String) : Option String :=
  match mapGet data key with
  | some (JValue.str s) => some s
  | _ => none

/-- Function extractBool from transform.go. -/
def extractBool (data : JObj) (key : String) : Option Bool :=
  match mapGet data key with
  | some (JValue.bool b) => some b
  | _ => none

/-- Function extractFloat64 from transform.go: JSON numbers unmarshal to
`float64` in Go, modelled as ℚ. -/
def extractFloat64 (data : JObj) (key : String) : Option ℚ :=
  match mapGet data key with
  | some (JValue.num q) => some q
  | _ => none

/-- Function extractNestedMap from transform.go. -/
def extractNestedMap (data : JObj) (key : String) : Option JObj :=
  match mapGet data key with
  | some (JValue.obj m) => some m
  | _ => none

/-- Go's conversion `int64(v)` for `v : float64`: truncation toward
zero (the 64-bit overflow regime is outside the modelled domain). -/
def goInt64 (q : ℚ) : ℤ :=
  if 0 ≤ q then ⌊q⌋ else ⌈q⌉

/-- A `time.Time` instant: epoch seconds and the nanosecond part. -/
structure GoTime where
  sec : ℤ
  nsec : ℕ
deriving DecidableEq

/-- The instant displayed by
`t.UTC().Format("2006-01-02T15:04:05.000Z")`: epoch seconds together
with the millisecond part (the format truncates to milliseconds). The
rendered text is an injective function of this pair. -/
def formatMillisUTC (t : GoTime) : ℤ × ℕ :=
  (t.sec, t.nsec / 1000000)

/-- Wire-format `HookEvent` (internal/hookevt/hookevt.go). -/
structure HookEvent where
  hookType : String
  timestamp : GoTime
  data : JObj

/-- MeiliSearch-ready `Document` (internal/store/store.go); carries the
derived search/filter fields plus the original `data` tree. -/
structure Document where
  id : String
  hookType : String
  timestamp : ℤ × ℕ
  timestampUnix : ℤ
  sessionId : String
  toolName : String
  hasClaudeMD : Bool
  inputTokens : ℤ
  outputTokens : ℤ
  cacheReadTokens : ℤ
  cacheCreateTokens : ℤ
  costUSD : ℚ
  prompt : String
  filePath : String
  errorMessage : String
  projectDir : String
  permissionMode : String
  cwd : String
  dataFlat : String
  data : JObj

/-- Record shape PromptDocument for the dedicated prompts index. -/
structure PromptDocument where
  id : String
  hookType : String
  timestamp : ℤ × ℕ
  timestampUnix : ℤ
  sessionId : String
  prompt : String
  promptLength : ℕ
  cwd : String
  projectDir : String
  permissionMode : String
  hasClaudeMD : Bool

/-- One unguarded path-1 step of `extractTokenMetrics`: Go's
`if v, ok := extractFloat64(data, key); ok { field = int64(v) }`. -/
def topPathInt (cur : ℤ) (data : JObj) (key : String) : ℤ :=
  match extractFloat64 data key with
  | some v => goInt64 v
  | none => cur

/-- One guarded lower-precedence step of `extractTokenMetrics`: inside
`if m, ok := extractNestedMap(...)`, Go runs
`if field == 0 { if v, ok := extractFloat64(m, key); ok { field = int64(v) } }`;
when the nested map is absent the whole block is skipped. -/
def tryPathInt (cur : ℤ) (src : Option JObj) (key : String) : ℤ :=
  match src with
  | none => cur
  | some m =>
    if cur = 0 then
      match extractFloat64 m key with
      | some v => goInt64 v
      | none => cur
    else cur

/-- The guarded step for the cost field (`float64`, no conversion). -/
def tryPathRat (cur : ℚ) (src : Option JObj) (key : String) : ℚ :=
  match src with
  | none => cur
  | some m =>
    if cur = 0 then
      match extractFloat64 m key with
      | some v => v
      | none => cur
    else cur

/-- Function extractTokenMetrics (transform.go): populates token and cost
fields, consulting top-level fields first, then `usage`, then
`stop_hook_data`; each later path only fires while the field still
holds zero. Go mutates one field per statement; each statement is one
record update here, in the same order. -/
def extractTokenMetrics (doc : Document) (data : JObj) : Document :=
  -- Path 1: top-level fields.
  let doc := { doc with inputTokens := topPathInt doc.inputTokens data "input_tokens" }
  let doc := { doc with outputTokens := topPathInt doc.outputTokens data "output_tokens" }
  let doc := { doc with cacheReadTokens := topPathInt doc.cacheReadTokens data "cache_read_input_tokens" }
  let doc := { doc with cacheCreateTokens := topPathInt doc.cacheCreateTokens data "cache_creation_input_tokens" }
  let doc := { doc with costUSD := (extractFloat64 data "total_cost_usd").getD doc.costUSD }
  -- Path 2: nested under the "usage" map.
  let usage := extractNestedMap data "usage"
  let doc := { doc with inputTokens := tryPathInt doc.inputTokens usage "input_tokens" }
  let doc := { doc with outputTokens := tryPathInt doc.outputTokens usage "output_tokens" }
  let doc := { doc with cacheReadTokens := tryPathInt doc.cacheReadTokens usage "cache_read_input_tokens" }
  let doc := { doc with cacheCreateTokens := tryPathInt doc.cacheCreateTokens usage "cache_creation_input_tokens" }
  -- Path 3: nested under "stop_hook_data".
  let stopData := extractNestedMap data "stop_hook_data"
  let doc := { doc with costUSD := tryPathRat doc.costUSD stopData "total_cost_usd" }
  let stopUsage := stopData.bind (fun sd => extractNestedMap sd "usage")
  let doc := { doc with inputTokens := tryPathInt doc.inputTokens stopUsage "input_tokens" }
  let doc := { doc with outputTokens := tryPathInt doc.outputTokens stopUsage "output_tokens" }
  doc

/-- Insert a keyed pair into a key-sorted list (ascending). -/
def insertByKey {α : Type} (p : String × α) : List (String × α) → List (String × α)
  | [] => [p]
  | q :: rest => if p.1 < q.1 then p :: q :: rest else q :: insertByKey p rest

/-- Sort an association list by key, ascending — `sort.Strings` over the
map's keys. The Go maps being sorted have pairwise-distinct keys, so
stability is immaterial. -/
def sortByKey {α : Type} : List (String × α) → List (String × α)
  | [] => []
  | p :: rest => insertByKey p (sortByKey rest)

mutual
/-- Function collectStringValues (transform.go): collect non-empty string
leaves; recurse into object values in sorted-key order and into array
elements in order; numbers, bools and null contribute nothing. Go
sorts the keys and then visits `val[k]`; with distinct keys this equals
collecting per entry and sorting the (key, collected) pairs, which is
how the recursion is structured here. -/
def collectStringValues : JValue → List String
  | JValue.str s => if s = "" then [] else [s]
  | JValue.num _ => []
  | JValue.bool _ => []
  | JValue.null => []
  | JValue.obj fields => (sortByKey (collectFieldValues fields)).flatMap (fun p => p.2)
  | JValue.arr elems => collectArrayValues elems

/-- Per-entry collection for an object's fields, keeping keys for the
subsequent sort. -/
def collectFieldValues : List (String × JValue) → List (String × List String)
  | [] => []
  | (k, v) :: rest => (k, collectStringValues v) :: collectFieldValues rest

/-- In-order collection over an array's elements. -/
def collectArrayValues : List JValue → List String
  | [] => []
  | v :: rest => collectStringValues v ++ collectArrayValues rest
end

/-- Function extractStringValues (transform.go): space-join the collected
leaves; the nil map yields the empty string, as does the empty list. -/
def extractStringValues (data : JObj) : String :=
  String.intercalate " " (collectStringValues (JValue.obj data))

/-- Function HookEventToDocument (transform.go), with the generated UUID
passed in explicitly. Go's `if v, ok := extract…; ok { doc.F = v }`
over the zero-valued field is `(extract…).getD zero`. -/
def hookEventToDocument (genId : String) (evt : HookEvent) : Document :=
  let doc : Document := {
    id := genId
    hookType := evt.hookType
    timestamp := formatMillisUTC evt.timestamp
    timestampUnix := evt.timestamp.sec
    sessionId := (extractString evt.data "session_id").getD ""
    toolName := (extractString evt.data "tool_name").getD ""
    hasClaudeMD := ((extractNestedMap evt.data "_monitor").bind
      (fun m => extractBool m "has_claude_md")).getD false
    inputTokens := 0
    outputTokens := 0
    cacheReadTokens := 0
    cacheCreateTokens := 0
    costUSD := 0
    prompt := (extractString evt.data "prompt").getD ""
    filePath := ((extractNestedMap evt.data "tool_input").bind
      (fun ti => extractString ti "file_path")).getD ""
    errorMessage := (extractString evt.data "error").getD ""
    projectDir := ((extractNestedMap evt.data "_monitor").bind
      (fun m => extractString m "project_dir")).getD ""
    permissionMode := (extractString evt.data "permission_mode").getD ""
    cwd := (extractString evt.data "cwd").getD ""
    dataFlat := extractStringValues evt.data
    data := evt.data }
  extractTokenMetrics doc evt.data

/-- Function DocumentToPromptDocument (transform.go): `len(doc.Prompt)` counts
UTF-8 bytes, modelled by the UTF-8 byte length of the string. -/
def documentToPromptDocument (doc : Document) : PromptDocument :=
  { id := doc.id
    hookType := doc.hookType
    timestamp := doc.timestamp
    timestampUnix := doc.timestampUnix
    sessionId := doc.sessionId
    prompt := doc.prompt
    promptLength := doc.prompt.utf8ByteSize
    cwd := doc.cwd
    projectDir := doc.projectDir
    permissionMode := doc.permissionMode
    hasClaudeMD := doc.hasClaudeMD }

/-! ### Precedence characterization for the numeric usage/cost fields -/

/-- The `usage.<key>` source path: its typed value, if any. -/
def usagePathNum (data : JObj) (key : String) : Option ℚ :=
  (extractNestedMap data "usage").bind (fun u => extractFloat64 u key)

/-- The `stop_hook_data.usage.<key>` source path. -/
def stopUsagePathNum (data : JObj) (key : String) : Option ℚ :=
  ((extractNestedMap data "stop_hook_data").bind
    (fun sd => extractNestedMap sd "usage")).bind (fun u => extractFloat64 u key)

/-- The `stop_hook_data.total_cost_usd` source path. -/
def stopCostPathNum (data : JObj) : Option ℚ :=
  (extractNestedMap data "stop_hook_data").bind
    (fun sd => extractFloat64 sd "total_cost_usd")

/-- First value among the typed path hits whose `int64` conversion is
non-zero, else 0 — the value `extractTokenMetrics` leaves in an integer
token field. An untyped or absent path (`none`) is skipped. -/
def firstNonzeroInt : List (Option ℚ) → ℤ
  | [] => 0
  | none :: rest => firstNonzeroInt rest
  | some v :: rest => if goInt64 v = 0 then firstNonzeroInt rest else goInt64 v

/-- First non-zero value among the typed path hits, else 0 — the value
`extractTokenMetrics` leaves in the cost field. -/
def firstNonzeroRat : List (Option ℚ) → ℚ
  | [] => 0
  | none :: rest => firstNonzeroRat rest
  | some v :: rest => if v = 0 then firstNonzeroRat rest else v

/-- The path whose typed value determines an integer token field: the
first one converting to a non-zero `int64`. -/
def winnerInt : List (Option ℚ) → Option ℚ
  | [] => none
  | none :: rest => winnerInt rest
  | some v :: rest => if goInt64 v = 0 then winnerInt rest else some v

/-- The path whose typed value determines the cost field. -/
def winnerRat : List (Option ℚ) → Option ℚ
  | [] => none
  | none :: rest => winnerRat rest
  | some v :: rest => if v = 0 then winnerRat rest else some v

/-- Zero-guarded left-to-right consultation of a path list: the loop
shape shared by all numeric fields of `extractTokenMetrics`. -/
def chainInt : ℤ → List (Option ℚ) → ℤ
  | cur, [] => cur
  | cur, o :: rest =>
    chainInt (if cur = 0 then
        (match o with
         | some v => goInt64 v
         | none => cur)
      else cur) rest

/-- Zero-guarded consultation for the cost field. -/
def chainRat : ℚ → List (Option ℚ) → ℚ
  | cur, [] => cur
  | cur, o :: rest =>
    chainRat (if cur = 0 then
        (match o with
         | some v => v
         | none => cur)
      else cur) rest

/-! ### The string-leaf predicate for the flattened search text -/

/-- Predicate: `s` occurs as a string leaf somewhere in the value tree. -/
inductive IsStringLeaf (s : String) : JValue → Prop where
  | strLeaf : IsStringLeaf s (JValue.str s)
  | inObj {k : String} {v : JValue} {fields : List (String × JValue)} :
      (k, v) ∈ fields → IsStringLeaf s v → IsStringLeaf s (JValue.obj fields)
  | inArr {v : JValue} {elems : List JValue} :
      v ∈ elems → IsStringLeaf s v → IsStringLeaf s (JValue.arr elems)

/-! ### Migration coordinator (meili.go) -/

/-- A raw MeiliSearch hit (`map[string]json.RawMessage`) as the
migration reads it with `Fields: ["id", "data"]`: `id` is the decoded
`"id"` member when present and a JSON string (`none` collapses both
"absent" and "not a string", Go's unmarshal error), and `data` is the
decoded `"data"` member when present. -/
structure Hit where
  id : Option String
  data : Option JValue

/-- A present optional extraction becomes one patch entry. -/
def optEntry (k : String) : Option JValue → List (String × JValue)
  | some v => [(k, v)]
  | none => []

/-- The patch entries `extractMigrationFields` stages from a `data`
map, in statement order (transform.go's helpers over the same map). -/
def migrationFieldEntries (data : JObj) : List (String × JValue) :=
  optEntry "prompt" ((extractString data "prompt").map JValue.str)
  ++ optEntry "file_path" (((extractNestedMap data "tool_input").bind
      (fun ti => extractString ti "file_path")).map JValue.str)
  ++ optEntry "error_message" ((extractString data "error").map JValue.str)
  ++ optEntry "permission_mode" ((extractString data "permission_mode").map JValue.str)
  ++ optEntry "project_dir" (((extractNestedMap data "_monitor").bind
      (fun m => extractString m "project_dir")).map JValue.str)
  ++ optEntry "has_claude_md" (((extractNestedMap data "_monitor").bind
      (fun m => extractBool m "has_claude_md")).map JValue.bool)
  ++ optEntry "cwd" ((extractString data "cwd").map JValue.str)

/-- Function extractMigrationFields (meili.go): `none` models the error return
(missing/unparsable id, on which the caller skips the hit); otherwise
the partial update starts with the id and adds the extracted fields.
JSON `null` unmarshals into a nil Go map, on which every lookup
misses. A non-object `data` skips extraction. -/
def extractMigrationFields (hit : Hit) : Option (List (String × JValue)) :=
  match hit.id with
  | none => none
  | some i =>
    let patch := [("id", JValue.str i)]
    match hit.data with
    | none => some patch
    | some (JValue.obj fields) => some (patch ++ migrationFieldEntries fields)
    | some JValue.null => some (patch ++ migrationFieldEntries [])
    | some _ => some patch

/-- The partial updates staged from one page: hits whose extraction
errored are skipped (`continue`), and a patch is staged only when it
holds more than just the id. -/
def migrationUpdates (hits : List Hit) : List (List (String × JValue)) :=
  hits.filterMap (fun h =>
    match extractMigrationFields h with
    | none => none
    | some patch => if 1 < patch.length then some patch else none)

/-- One page of `GetDocuments` results together with the backend's
reported overall total (`result.Total`). -/
structure Page where
  results : List Hit
  total : ℤ

/-- The observable outcome of one loop iteration's backend
interactions: the cancellation signal read at the top (`ctx.Err()`),
the page fetch, and — if a batch write is issued — its outcome
(`UpdateDocuments`, `WaitForTask`, and a failed task status collapse
into one returned error). -/
structure PageStep where
  cancelled : Option String
  fetch : Except String Page
  write : Except String Unit

/-- Method MigrateDocuments (meili.go) as a fold over the trace of page
iterations, carrying the page offset and the cumulative processed
count. An exhausted trace ends the run (a modelling artifact: the
theorems concern runs that settle within the trace). Returns
(migrated count, error). -/
def migrateGo (batchSize : ℤ) : ℤ → ℤ → List PageStep → ℤ × Option String
  | _, total, [] => (total, none)
  | offset, total, step :: rest =>
    match step.cancelled with
    | some e => (total, some e)
    | none =>
      match step.fetch with
      | Except.error e => (total, some e)
      | Except.ok page =>
        if page.results.length = 0 then (total, none)
        else
          let writeRes : Option String :=
            if 0 < (migrationUpdates page.results).length then
              match step.write with
              | Except.error e => some e
              | Except.ok _ => none
            else none
          match writeRes with
          | some e => (total, some e)
          | none =>
            let total2 := total + (page.results.length : ℤ)
            let offset2 := offset + batchSize
            if page.total ≤ offset2 then (total2, none)
            else migrateGo batchSize offset2 total2 rest

/-- Method MigrateDocuments run from offset 0 with zero progress. -/
def migrateDocuments (batchSize : ℤ) (steps : List PageStep) : ℤ × Option String :=
  migrateGo batchSize 0 0 steps

/-! ### Backend adapter write (meili.go `MeiliStore.Index`) -/

/-- Method MeiliStore.Index: the primary `AddDocuments` outcome decides the
returned error (wrapped with the document id); for `UserPromptSubmit`
events with a prompts index configured, the secondary write's failure
is only logged (the Bool records that warning) and never returned. -/
def meiliIndexWrite (hasPromptsIndex : Bool) (doc : Document)
    (primaryWrite : Except String Unit) (promptWrite : Except String Unit) :
    Except String Unit × Bool :=
  match primaryWrite with
  | Except.error e => (Except.error ("index document " ++ doc.id ++ ": " ++ e), false)
  | Except.ok _ =>
    if hasPromptsIndex && (doc.hookType == "UserPromptSubmit") then
      match promptWrite with
      | Except.error _ => (Except.ok (), true)
      | Except.ok _ => (Except.ok (), false)
    else (Except.ok (), false)

/-! ### Ingest gateway (server.go `handleIngest`) -/

/-- The 1 MiB body cap. -/
def maxBodyLen : ℕ := 1 <<< 20

/-- Maximum accepted JSON nesting depth. -/
def maxJSONDepth : ℕ := 100

/-- The gateway's mutable counters: `ingested`, `errors`, and the
`lastEvent` timestamp. -/
structure ServerState where
  ingested : ℤ
  errors : ℤ
  lastEvent : Option GoTime

/-- What the primitive body operations observe for one request: the
number of bytes read (`io.ReadAll` under `LimitReader(maxBodyLen+1)`),
the maximum JSON nesting depth `checkJSONDepth` scans, and the result
of `json.Unmarshal` into a `HookEvent`. -/
structure BodyView where
  len : ℕ
  depth : ℕ
  decoded : Option HookEvent

/-- One inbound request as the handler observes it. -/
structure IngestRequest where
  method : String
  readErr : Bool
  body : BodyView

/-- The handler's observable outcome: new counter state, HTTP status,
how many times the transform and the storage write ran, and the id
acknowledged on 202. -/
structure IngestResult where
  state : ServerState
  status : ℕ
  transformCalls : ℕ
  indexCalls : ℕ
  ackId : Option String

/-- Counter bump `errors.Add(1)`. -/
def bumpErr (st : ServerState) : ServerState :=
  { st with errors := st.errors + 1 }

/-- The tail of `handleIngest` after all validation passed: transform,
then the storage write; on write failure 503 with the error counter
bumped, on success 202 with `ingested` bumped and `lastEvent` set. -/
def handleIngestValidated (genId : String) (now : GoTime)
    (indexOutcome : Except String Unit) (st : ServerState) (evt : HookEvent) :
    IngestResult :=
  let doc := hookEventToDocument genId evt
  match indexOutcome with
  | Except.error _ =>
    { state := bumpErr st, status := 503, transformCalls := 1, indexCalls := 1, ackId := none }
  | Except.ok _ =>
    { state := { ingested := st.ingested + 1, errors := st.errors, lastEvent := some now },
      status := 202, transformCalls := 1, indexCalls := 1, ackId := some doc.id }

/-- Function handleIngest (server.go): the validation gauntlet in statement
order, then the transform/write tail. `indexOutcome` is what
`store.Index` would return if called; the call counters record whether
it actually runs. -/
def handleIngest (genId : String) (now : GoTime)
    (indexOutcome : Except String Unit) (st : ServerState) (req : IngestRequest) :
    IngestResult :=
  if req.method ≠ "POST" then
    { state := st, status := 405, transformCalls := 0, indexCalls := 0, ackId := none }
  else if req.readErr then
    { state := bumpErr st, status := 400, transformCalls := 0, indexCalls := 0, ackId := none }
  else if maxBodyLen < req.body.len then
    { state := bumpErr st, status := 413, transformCalls := 0, indexCalls := 0, ackId := none }
  else if req.body.len = 0 then
    { state := bumpErr st, status := 400, transformCalls := 0, indexCalls := 0, ackId := none }
  else if maxJSONDepth < req.body.depth then
    { state := bumpErr st, status := 400, transformCalls := 0, indexCalls := 0, ackId := none }
  else
    match req.body.decoded with
    | none =>
      { state := bumpErr st, status := 400, transformCalls := 0, indexCalls := 0, ackId := none }
    | some evt =>
      if evt.hookType = "" then
        { state := bumpErr st, status := 400, transformCalls := 0, indexCalls := 0, ackId := none }
      else
        handleIngestValidated genId now indexOutcome st evt

/-! ## Theorems -/

/-- C6: transforming the same valid wire event twice, with the two runs
of identifier generation yielding distinct ids, gives Documents that
differ in `id` and agree on every other field. -/
theorem transform_deterministic_modulo_id (id1 id2 : String) (evt : HookEvent)
    (_hkind : evt.hookType ≠ "") (hid : id1 ≠ id2) :
    (hookEventToDocument id1 evt).id ≠ (hookEventToDocument id2 evt).id
    ∧ (hookEventToDocument id1 evt).hookType = (hookEventToDocument id2 evt).hookType
    ∧ (hookEventToDocument id1 evt).timestamp = (hookEventToDocument id2 evt).timestamp
    ∧ (hookEventToDocument id1 evt).timestampUnix = (hookEventToDocument id2 evt).timestampUnix
    ∧ (hookEventToDocument id1 evt).sessionId = (hookEventToDocument id2 evt).sessionId
    ∧ (hookEventToDocument id1 evt).toolName = (hookEventToDocument id2 evt).toolName
    ∧ (hookEventToDocument id1 evt).hasClaudeMD = (hookEventToDocument id2 evt).hasClaudeMD
    ∧ (hookEventToDocument id1 evt).inputTokens = (hookEventToDocument id2 evt).inputTokens
    ∧ (hookEventToDocument id1 evt).outputTokens = (hookEventToDocument id2 evt).outputTokens
    ∧ (hookEventToDocument id1 evt).cacheReadTokens = (hookEventToDocument id2 evt).cacheReadTokens
    ∧ (hookEventToDocument id1 evt).cacheCreateTokens = (hookEventToDocument id2 evt).cacheCreateTokens
    ∧ (hookEventToDocument id1 evt).costUSD = (hookEventToDocument id2 evt).costUSD
    ∧ (hookEventToDocument id1 evt).prompt = (hookEventToDocument id2 evt).prompt
    ∧ (hookEventToDocument id1 evt).filePath = (hookEventToDocument id2 evt).filePath
    ∧ (hookEventToDocument id1 evt).errorMessage = (hookEventToDocument id2 evt).errorMessage
    ∧ (hookEventToDocument id1 evt).projectDir = (hookEventToDocument id2 evt).projectDir
    ∧ (hookEventToDocument id1 evt).permissionMode = (hookEventToDocument id2 evt).permissionMode
    ∧ (hookEventToDocument id1 evt).cwd = (hookEventToDocument id2 evt).cwd
    ∧ (hookEventToDocument id1 evt).dataFlat = (hookEventToDocument id2 evt).dataFlat
    ∧ (hookEventToDocument id1 evt).data = (hookEventToDocument id2 evt).data :=
  ⟨hid, rfl, rfl, rfl, rfl, rfl, rfl, rfl, rfl, rfl, rfl, rfl, rfl, rfl, rfl, rfl,
    rfl, rfl, rfl, rfl⟩

/-- C6 witness at a concrete event and two distinct generated ids. -/
theorem transform_deterministic_modulo_id_witness :
    (hookEventToDocument "id-a" (HookEvent.mk "PreToolUse" ⟨1772029800, 0⟩
        [("tool_name", JValue.str "Write")])).id
      ≠ (hookEventToDocument "id-b" (HookEvent.mk "PreToolUse" ⟨1772029800, 0⟩
        [("tool_name", JValue.str "Write")])).id
    ∧ (hookEventToDocument "id-a" (HookEvent.mk "PreToolUse" ⟨1772029800, 0⟩
        [("tool_name", JValue.str "Write")])).toolName
      = (hookEventToDocument "id-b" (HookEvent.mk "PreToolUse" ⟨1772029800, 0⟩
        [("tool_name", JValue.str "Write")])).toolName :=
  ⟨(transform_deterministic_modulo_id "id-a" "id-b" _ (by decide) (by decide)).1,
   (transform_deterministic_modulo_id "id-a" "id-b" _ (by decide) (by decide)).2.2.2.2.2.1⟩

/-- C9: the Document carries the event's `data` tree unchanged, and
every extracted scalar field plus the flattened search text is a pure
function of that tree: two events sharing `data` yield identical
derived fields, whatever their kind, timestamp, or generated id. -/
theorem transform_frame (genId genId2 : String) (evt evt2 : HookEvent)
    (hdata : evt.data = evt2.data) :
    (hookEventToDocument genId evt).data = evt.data
    ∧ (hookEventToDocument genId evt).sessionId = (hookEventToDocument genId2 evt2).sessionId
    ∧ (hookEventToDocument genId evt).toolName = (hookEventToDocument genId2 evt2).toolName
    ∧ (hookEventToDocument genId evt).hasClaudeMD = (hookEventToDocument genId2 evt2).hasClaudeMD
    ∧ (hookEventToDocument genId evt).inputTokens = (hookEventToDocument genId2 evt2).inputTokens
    ∧ (hookEventToDocument genId evt).outputTokens = (hookEventToDocument genId2 evt2).outputTokens
    ∧ (hookEventToDocument genId evt).cacheReadTokens = (hookEventToDocument genId2 evt2).cacheReadTokens
    ∧ (hookEventToDocument genId evt).cacheCreateTokens = (hookEventToDocument genId2 evt2).cacheCreateTokens
    ∧ (hookEventToDocument genId evt).costUSD = (hookEventToDocument genId2 evt2).costUSD
    ∧ (hookEventToDocument genId evt).prompt = (hookEventToDocument genId2 evt2).prompt
    ∧ (hookEventToDocument genId evt).filePath = (hookEventToDocument genId2 evt2).filePath
    ∧ (hookEventToDocument genId evt).errorMessage = (hookEventToDocument genId2 evt2).errorMessage
    ∧ (hookEventToDocument genId evt).projectDir = (hookEventToDocument genId2 evt2).projectDir
    ∧ (hookEventToDocument genId evt).permissionMode = (hookEventToDocument genId2 evt2).permissionMode
    ∧ (hookEventToDocument genId evt).cwd = (hookEventToDocument genId2 evt2).cwd
    ∧ (hookEventToDocument genId evt).dataFlat = (hookEventToDocument genId2 evt2).dataFlat := by
  obtain ⟨k1, t1, d1⟩ := evt
  obtain ⟨k2, t2, d2⟩ := evt2
  have hd : d1 = d2 := hdata
  subst hd
  exact ⟨rfl, rfl, rfl, rfl, rfl, rfl, rfl, rfl, rfl, rfl, rfl, rfl, rfl, rfl, rfl, rfl⟩

/-- C9 witness: two events sharing a `data` tree but differing in kind,
timestamp and generated id still agree on the derived fields. -/
theorem transform_frame_witness :
    (hookEventToDocument "id-a" (HookEvent.mk "PreToolUse" ⟨10, 0⟩
        [("cwd", JValue.str "/tmp")])).data = [("cwd", JValue.str "/tmp")]
    ∧ (hookEventToDocument "id-a" (HookEvent.mk "PreToolUse" ⟨10, 0⟩
        [("cwd", JValue.str "/tmp")])).cwd
      = (hookEventToDocument "id-b" (HookEvent.mk "Stop" ⟨20, 5⟩
        [("cwd", JValue.str "/tmp")])).cwd :=
  ⟨(transform_frame "id-a" "id-b"
      (HookEvent.mk "PreToolUse" ⟨10, 0⟩ [("cwd", JValue.str "/tmp")])
      (HookEvent.mk "Stop" ⟨20, 5⟩ [("cwd", JValue.str "/tmp")]) rfl).1,
   (transform_frame "id-a" "id-b"
      (HookEvent.mk "PreToolUse" ⟨10, 0⟩ [("cwd", JValue.str "/tmp")])
      (HookEvent.mk "Stop" ⟨20, 5⟩ [("cwd", JValue.str "/tmp")]) rfl).2.2.2.2.2.2.2.2.2.2.2.2.2.2.1⟩

/-- C7: the backend adapter's Write returns success exactly when the
primary write succeeds; the secondary (prompts-index) outcome never
changes the returned value — its failure is only recorded as a logged
warning. -/
theorem meili_write_fail_soft (hasPromptsIndex : Bool) (doc : Document)
    (primaryWrite promptWrite promptWrite2 : Except String Unit) :
    ((meiliIndexWrite hasPromptsIndex doc primaryWrite promptWrite).1.isOk
        = primaryWrite.isOk)
    ∧ (meiliIndexWrite hasPromptsIndex doc primaryWrite promptWrite).1
        = (meiliIndexWrite hasPromptsIndex doc primaryWrite promptWrite2).1 := by
  cases primaryWrite with
  | error e => exact ⟨rfl, rfl⟩
  | ok u =>
    cases u
    refine ⟨?_, ?_⟩ <;>
      simp only [meiliIndexWrite] <;>
      split <;>
      cases promptWrite <;>
      first
        | rfl
        | (cases promptWrite2 <;> rfl)

/-- C4: every input-validation rejection (oversized body 413; empty
body, excessive nesting, undecodable body, or empty kind 400) bumps
only the error counter, leaves the success counter and last-success
time unchanged, and never runs the transform or the storage write. -/
theorem ingest_validation_rejections (genId : String) (now : GoTime)
    (indexOutcome : Except String Unit) (st : ServerState) (req : IngestRequest)
    (hm : req.method = "POST") (hr : req.readErr = false) :
    (maxBodyLen < req.body.len →
      handleIngest genId now indexOutcome st req
        = { state := bumpErr st, status := 413, transformCalls := 0, indexCalls := 0,
            ackId := none })
    ∧ (req.body.len ≤ maxBodyLen → req.body.len = 0 →
      handleIngest genId now indexOutcome st req
        = { state := bumpErr st, status := 400, transformCalls := 0, indexCalls := 0,
            ackId := none })
    ∧ (req.body.len ≤ maxBodyLen → req.body.len ≠ 0 → maxJSONDepth < req.body.depth →
      handleIngest genId now indexOutcome st req
        = { state := bumpErr st, status := 400, transformCalls := 0, indexCalls := 0,
            ackId := none })
    ∧ (req.body.len ≤ maxBodyLen → req.body.len ≠ 0 → req.body.depth ≤ maxJSONDepth →
      req.body.decoded = none →
      handleIngest genId now indexOutcome st req
        = { state := bumpErr st, status := 400, transformCalls := 0, indexCalls := 0,
            ackId := none })
    ∧ (∀ evt, req.body.len ≤ maxBodyLen → req.body.len ≠ 0 → req.body.depth ≤ maxJSONDepth →
      req.body.decoded = some evt → evt.hookType = "" →
      handleIngest genId now indexOutcome st req
        = { state := bumpErr st, status := 400, transformCalls := 0, indexCalls := 0,
            ackId := none }) := by
  refine ⟨fun h1 => ?_, fun h1 h2 => ?_, fun h1 h2 h3 => ?_, fun h1 h2 h3 h4 => ?_,
    fun evt h1 h2 h3 h4 h5 => ?_⟩
  · simp [handleIngest, hm, hr, h1]
  · simp [handleIngest, hm, hr, Nat.not_lt.mpr h1, h2]
  · simp [handleIngest, hm, hr, Nat.not_lt.mpr h1, h2, h3]
  · simp [handleIngest, hm, hr, Nat.not_lt.mpr h1, h2, Nat.not_lt.mpr h3, h4]
  · simp [handleIngest, hm, hr, Nat.not_lt.mpr h1, h2, Nat.not_lt.mpr h3, h4, h5]

/-- C4 witness: a POST whose body is one byte over the 1 MiB cap is
rejected with 413, bumps errors 4 → 5, keeps the success counter and
last-success time, and performs zero transform/storage calls. -/
theorem ingest_validation_rejections_witness :
    handleIngest "w" ⟨0, 0⟩ (Except.ok ()) ⟨3, 4, none⟩
        ⟨"POST", false, ⟨1048577, 1, none⟩⟩
      = { state := ⟨3, 5, none⟩, status := 413, transformCalls := 0, indexCalls := 0,
          ackId := none } :=
  (ingest_validation_rejections "w" ⟨0, 0⟩ (Except.ok ()) ⟨3, 4, none⟩
      ⟨"POST", false, ⟨1048577, 1, none⟩⟩ rfl rfl).1 (by decide)

/-- C5: a valid submission whose storage write fails yields 503 (not
any 4xx class), bumps only the error counter, and leaves the success
counter and last-success time unchanged. -/
theorem ingest_backend_unavailable (genId : String) (now : GoTime) (e : String)
    (st : ServerState) (req : IngestRequest) (evt : HookEvent)
    (hm : req.method = "POST") (hr : req.readErr = false)
    (h1 : req.body.len ≤ maxBodyLen) (h2 : req.body.len ≠ 0)
    (h3 : req.body.depth ≤ maxJSONDepth) (h4 : req.body.decoded = some evt)
    (h5 : evt.hookType ≠ "") :
    handleIngest genId now (Except.error e) st req
      = { state := bumpErr st, status := 503, transformCalls := 1, indexCalls := 1,
          ackId := none } := by
  simp [handleIngest, handleIngestValidated, hm, hr, Nat.not_lt.mpr h1, h2,
    Nat.not_lt.mpr h3, h4, h5]

/-- C5 witness: a well-formed event whose write fails gets 503 with
errors 4 → 5 and `ingested`/`lastEvent` untouched. -/
theorem ingest_backend_unavailable_witness :
    handleIngest "w" ⟨0, 0⟩ (Except.error "boom") ⟨3, 4, some ⟨9, 9⟩⟩
        ⟨"POST", false, ⟨2, 1, some (HookEvent.mk "Stop" ⟨0, 0⟩ [])⟩⟩
      = { state := ⟨3, 5, some ⟨9, 9⟩⟩, status := 503, transformCalls := 1, indexCalls := 1,
          ackId := none } :=
  ingest_backend_unavailable "w" ⟨0, 0⟩ "boom" ⟨3, 4, some ⟨9, 9⟩⟩
    ⟨"POST", false, ⟨2, 1, some (HookEvent.mk "Stop" ⟨0, 0⟩ [])⟩⟩
    (HookEvent.mk "Stop" ⟨0, 0⟩ []) rfl rfl (by decide) (by decide)
    (by decide) rfl (by decide)

/-! Helper lemmas shared by the precedence and truncation theorems. -/

theorem chainInt_of_ne {cur : ℤ} (l : List (Option ℚ)) (h : cur ≠ 0) :
    chainInt cur l = cur := by
  induction l with
  | nil => rfl
  | cons o rest ih => simp only [chainInt, if_neg h]; exact ih

theorem chainRat_of_ne {cur : ℚ} (l : List (Option ℚ)) (h : cur ≠ 0) :
    chainRat cur l = cur := by
  induction l with
  | nil => rfl
  | cons o rest ih => simp only [chainRat, if_neg h]; exact ih

theorem chainInt_eq_firstNonzeroInt (l : List (Option ℚ)) :
    chainInt 0 l = firstNonzeroInt l := by
  induction l with
  | nil => rfl
  | cons o rest ih =>
    cases o with
    | none => simpa [chainInt, firstNonzeroInt] using ih
    | some v =>
      by_cases hv : goInt64 v = 0
      · simpa [chainInt, firstNonzeroInt, hv] using ih
      · simp [chainInt, firstNonzeroInt, hv, chainInt_of_ne rest hv]

theorem chainRat_eq_firstNonzeroRat (l : List (Option ℚ)) :
    chainRat 0 l = firstNonzeroRat l := by
  induction l with
  | nil => rfl
  | cons o rest ih =>
    cases o with
    | none => simpa [chainRat, firstNonzeroRat] using ih
    | some v =>
      by_cases hv : v = 0
      · simpa [chainRat, firstNonzeroRat, hv] using ih
      · simp [chainRat, firstNonzeroRat, hv, chainRat_of_ne rest hv]

theorem chainInt_append (c : ℤ) (l1 l2 : List (Option ℚ)) :
    chainInt c (l1 ++ l2) = chainInt (chainInt c l1) l2 := by
  induction l1 generalizing c with
  | nil => rfl
  | cons o rest ih => simp only [List.cons_append, chainInt]; exact ih _

theorem chainRat_append (c : ℚ) (l1 l2 : List (Option ℚ)) :
    chainRat c (l1 ++ l2) = chainRat (chainRat c l1) l2 := by
  induction l1 generalizing c with
  | nil => rfl
  | cons o rest ih => simp only [List.cons_append, chainRat]; exact ih _

theorem topPathInt_eq_chain (data : JObj) (key : String) :
    topPathInt 0 data key = chainInt 0 [extractFloat64 data key] := by
  cases h : extractFloat64 data key <;> simp [topPathInt, chainInt, h]

theorem tryPathInt_eq_chain (c : ℤ) (src : Option JObj) (key : String) :
    tryPathInt c src key = chainInt c [src.bind (fun m => extractFloat64 m key)] := by
  cases src with
  | none => simp [tryPathInt, chainInt]
  | some m => cases h : extractFloat64 m key <;> by_cases hc : c = 0 <;>
      simp [tryPathInt, chainInt, h, hc]

theorem tryPathRat_eq_chain (c : ℚ) (src : Option JObj) (key : String) :
    tryPathRat c src key = chainRat c [src.bind (fun m => extractFloat64 m key)] := by
  cases src with
  | none => simp [tryPathRat, chainRat]
  | some m => cases h : extractFloat64 m key <;> by_cases hc : c = 0 <;>
      simp [tryPathRat, chainRat, h, hc]

theorem getD_eq_chainRat (o : Option ℚ) : o.getD 0 = chainRat 0 [o] := by
  cases o <;> simp [chainRat]

/-- The input-tokens field equals the first-nonzero consultation of its
three source paths. -/
theorem hookEvent_inputTokens_eq (genId : String) (evt : HookEvent) :
    (hookEventToDocument genId evt).inputTokens
      = firstNonzeroInt [extractFloat64 evt.data "input_tokens",
          usagePathNum evt.data "input_tokens", stopUsagePathNum evt.data "input_tokens"] := by
  have hproj : (hookEventToDocument genId evt).inputTokens
      = tryPathInt (tryPathInt (topPathInt 0 evt.data "input_tokens")
          (extractNestedMap evt.data "usage") "input_tokens")
          ((extractNestedMap evt.data "stop_hook_data").bind
            (fun sd => extractNestedMap sd "usage")) "input_tokens" := rfl
  rw [hproj, topPathInt_eq_chain, tryPathInt_eq_chain, tryPathInt_eq_chain,
    ← chainInt_append, ← chainInt_append, chainInt_eq_firstNonzeroInt]
  rfl

/-- The output-tokens field equals the first-nonzero consultation of
its three source paths. -/
theorem hookEvent_outputTokens_eq (genId : String) (evt : HookEvent) :
    (hookEventToDocument genId evt).outputTokens
      = firstNonzeroInt [extractFloat64 evt.data "output_tokens",
          usagePathNum evt.data "output_tokens", stopUsagePathNum evt.data "output_tokens"] := by
  have hproj : (hookEventToDocument genId evt).outputTokens
      = tryPathInt (tryPathInt (topPathInt 0 evt.data "output_tokens")
          (extractNestedMap evt.data "usage") "output_tokens")
          ((extractNestedMap evt.data "stop_hook_data").bind
            (fun sd => extractNestedMap sd "usage")) "output_tokens" := rfl
  rw [hproj, topPathInt_eq_chain, tryPathInt_eq_chain, tryPathInt_eq_chain,
    ← chainInt_append, ← chainInt_append, chainInt_eq_firstNonzeroInt]
  rfl

/-- The cache-read-tokens field equals the first-nonzero consultation
of its two source paths. -/
theorem hookEvent_cacheReadTokens_eq (genId : String) (evt : HookEvent) :
    (hookEventToDocument genId evt).cacheReadTokens
      = firstNonzeroInt [extractFloat64 evt.data "cache_read_input_tokens",
          usagePathNum evt.data "cache_read_input_tokens"] := by
  have hproj : (hookEventToDocument genId evt).cacheReadTokens
      = tryPathInt (topPathInt 0 evt.data "cache_read_input_tokens")
          (extractNestedMap evt.data "usage") "cache_read_input_tokens" := rfl
  rw [hproj, topPathInt_eq_chain, tryPathInt_eq_chain,
    ← chainInt_append, chainInt_eq_firstNonzeroInt]
  rfl

/-- The cache-creation-tokens field equals the first-nonzero
consultation of its two source paths. -/
theorem hookEvent_cacheCreateTokens_eq (genId : String) (evt : HookEvent) :
    (hookEventToDocument genId evt).cacheCreateTokens
      = firstNonzeroInt [extractFloat64 evt.data "cache_creation_input_tokens",
          usagePathNum evt.data "cache_creation_input_tokens"] := by
  have hproj : (hookEventToDocument genId evt).cacheCreateTokens
      = tryPathInt (topPathInt 0 evt.data "cache_creation_input_tokens")
          (extractNestedMap evt.data "usage") "cache_creation_input_tokens" := rfl
  rw [hproj, topPathInt_eq_chain, tryPathInt_eq_chain,
    ← chainInt_append, chainInt_eq_firstNonzeroInt]
  rfl

/-- The cost field equals the first-nonzero consultation of its two
source paths, with no integer conversion. -/
theorem hookEvent_costUSD_eq (genId : String) (evt : HookEvent) :
    (hookEventToDocument genId evt).costUSD
      = firstNonzeroRat [extractFloat64 evt.data "total_cost_usd",
          stopCostPathNum evt.data] := by
  have hproj : (hookEventToDocument genId evt).costUSD
      = tryPathRat ((extractFloat64 evt.data "total_cost_usd").getD 0)
          (extractNestedMap evt.data "stop_hook_data") "total_cost_usd" := rfl
  rw [hproj, getD_eq_chainRat, tryPathRat_eq_chain,
    ← chainRat_append, chainRat_eq_firstNonzeroRat]
  rfl

theorem firstNonzeroInt_of_winner : ∀ {l : List (Option ℚ)} {v : ℚ},
    winnerInt l = some v → firstNonzeroInt l = goInt64 v := by
  intro l
  induction l with
  | nil => intro v h; simp [winnerInt] at h
  | cons o rest ih =>
    intro v h
    cases o with
    | none =>
      simp only [winnerInt] at h
      simpa [firstNonzeroInt] using ih h
    | some w =>
      by_cases hw : goInt64 w = 0
      · simp only [winnerInt, if_pos hw] at h
        simpa [firstNonzeroInt, hw] using ih h
      · simp only [winnerInt, if_neg hw] at h
        cases h
        simp [firstNonzeroInt, hw]

theorem firstNonzeroRat_of_winner : ∀ {l : List (Option ℚ)} {v : ℚ},
    winnerRat l = some v → firstNonzeroRat l = v := by
  intro l
  induction l with
  | nil => intro v h; simp [winnerRat] at h
  | cons o rest ih =>
    intro v h
    cases o with
    | none =>
      simp only [winnerRat] at h
      simpa [firstNonzeroRat] using ih h
    | some w =>
      by_cases hw : w = 0
      · simp only [winnerRat, if_pos hw] at h
        simpa [firstNonzeroRat, hw] using ih h
      · simp only [winnerRat, if_neg hw] at h
        cases h
        simp [firstNonzeroRat, hw]

/-- C1 (amended): for each numeric usage/cost field the transform
consults the field's source paths in precedence order and stores the
first typed value converting to a non-zero field value; a typed zero at
a higher-precedence path does not stop the consultation, and when no
typed path converts to non-zero the field is the zero value. -/
theorem token_field_precedence (genId : String) (evt : HookEvent) :
    (hookEventToDocument genId evt).inputTokens
      = firstNonzeroInt [extractFloat64 evt.data "input_tokens",
          usagePathNum evt.data "input_tokens", stopUsagePathNum evt.data "input_tokens"]
    ∧ (hookEventToDocument genId evt).outputTokens
      = firstNonzeroInt [extractFloat64 evt.data "output_tokens",
          usagePathNum evt.data "output_tokens", stopUsagePathNum evt.data "output_tokens"]
    ∧ (hookEventToDocument genId evt).cacheReadTokens
      = firstNonzeroInt [extractFloat64 evt.data "cache_read_input_tokens",
          usagePathNum evt.data "cache_read_input_tokens"]
    ∧ (hookEventToDocument genId evt).cacheCreateTokens
      = firstNonzeroInt [extractFloat64 evt.data "cache_creation_input_tokens",
          usagePathNum evt.data "cache_creation_input_tokens"]
    ∧ (hookEventToDocument genId evt).costUSD
      = firstNonzeroRat [extractFloat64 evt.data "total_cost_usd",
          stopCostPathNum evt.data] :=
  ⟨hookEvent_inputTokens_eq genId evt, hookEvent_outputTokens_eq genId evt,
   hookEvent_cacheReadTokens_eq genId evt, hookEvent_cacheCreateTokens_eq genId evt,
   hookEvent_costUSD_eq genId evt⟩

/-- C1 counterexample to the claim as stated: with
`{"input_tokens": 0, "usage": {"input_tokens": 5}}` the top-level path
yields the typed value 0, yet the stored field is 5 — the
lower-precedence `usage` path is still consulted and overwrites the
typed zero. -/
theorem token_zero_overwritten_cex :
    extractFloat64 [("input_tokens", JValue.num 0),
        ("usage", JValue.obj [("input_tokens", JValue.num 5)])] "input_tokens" = some 0
    ∧ (hookEventToDocument "cex" (HookEvent.mk "Stop" ⟨0, 0⟩
        [("input_tokens", JValue.num 0),
         ("usage", JValue.obj [("input_tokens", JValue.num 5)])])).inputTokens = 5 :=
  ⟨rfl, rfl⟩

/-- C10: when the winning source path (the one that determines the
field) holds a number `v`, an integer token field stores `v` truncated
toward zero (`goInt64`), whereas the cost field stores `v` exactly,
fractional part included. -/
theorem token_truncation (genId : String) (evt : HookEvent) (v : ℚ) :
    (winnerInt [extractFloat64 evt.data "input_tokens",
        usagePathNum evt.data "input_tokens", stopUsagePathNum evt.data "input_tokens"]
        = some v →
      (hookEventToDocument genId evt).inputTokens = goInt64 v)
    ∧ (winnerInt [extractFloat64 evt.data "output_tokens",
        usagePathNum evt.data "output_tokens", stopUsagePathNum evt.data "output_tokens"]
        = some v →
      (hookEventToDocument genId evt).outputTokens = goInt64 v)
    ∧ (winnerInt [extractFloat64 evt.data "cache_read_input_tokens",
        usagePathNum evt.data "cache_read_input_tokens"] = some v →
      (hookEventToDocument genId evt).cacheReadTokens = goInt64 v)
    ∧ (winnerInt [extractFloat64 evt.data "cache_creation_input_tokens",
        usagePathNum evt.data "cache_creation_input_tokens"] = some v →
      (hookEventToDocument genId evt).cacheCreateTokens = goInt64 v)
    ∧ (winnerRat [extractFloat64 evt.data "total_cost_usd",
        stopCostPathNum evt.data] = some v →
      (hookEventToDocument genId evt).costUSD = v) := by
  refine ⟨fun h => ?_, fun h => ?_, fun h => ?_, fun h => ?_, fun h => ?_⟩
  · rw [hookEvent_inputTokens_eq]; exact firstNonzeroInt_of_winner h
  · rw [hookEvent_outputTokens_eq]; exact firstNonzeroInt_of_winner h
  · rw [hookEvent_cacheReadTokens_eq]; exact firstNonzeroInt_of_winner h
  · rw [hookEvent_cacheCreateTokens_eq]; exact firstNonzeroInt_of_winner h
  · rw [hookEvent_costUSD_eq]; exact firstNonzeroRat_of_winner h

/-- C10 witness: `input_tokens = 1.9` is stored truncated as 1, while
`total_cost_usd = 0.01` is stored exactly. -/
theorem token_truncation_witness :
    (hookEventToDocument "w" (HookEvent.mk "Stop" ⟨0, 0⟩
        [("input_tokens", JValue.num (1.9 : ℚ)),
         ("total_cost_usd", JValue.num (0.01 : ℚ))])).inputTokens = 1
    ∧ (hookEventToDocument "w" (HookEvent.mk "Stop" ⟨0, 0⟩
        [("input_tokens", JValue.num (1.9 : ℚ)),
         ("total_cost_usd", JValue.num (0.01 : ℚ))])).costUSD = (0.01 : ℚ) := by
  have hg : goInt64 (1.9 : ℚ) = 1 := by norm_num [goInt64]
  have hwi : winnerInt [extractFloat64
        [("input_tokens", JValue.num (1.9 : ℚ)),
         ("total_cost_usd", JValue.num (0.01 : ℚ))] "input_tokens",
      usagePathNum [("input_tokens", JValue.num (1.9 : ℚ)),
         ("total_cost_usd", JValue.num (0.01 : ℚ))] "input_tokens",
      stopUsagePathNum [("input_tokens", JValue.num (1.9 : ℚ)),
         ("total_cost_usd", JValue.num (0.01 : ℚ))] "input_tokens"]
      = some (1.9 : ℚ) := by
    simp [winnerInt, extractFloat64, usagePathNum, stopUsagePathNum, extractNestedMap,
      mapGet, hg]
  have hwc : winnerRat [extractFloat64
        [("input_tokens", JValue.num (1.9 : ℚ)),
         ("total_cost_usd", JValue.num (0.01 : ℚ))] "total_cost_usd",
      stopCostPathNum [("input_tokens", JValue.num (1.9 : ℚ)),
         ("total_cost_usd", JValue.num (0.01 : ℚ))]]
      = some (0.01 : ℚ) := by
    simp [winnerRat, extractFloat64, stopCostPathNum, extractNestedMap, mapGet]
    norm_num
  exact ⟨((token_truncation "w" (HookEvent.mk "Stop" ⟨0, 0⟩
        [("input_tokens", JValue.num (1.9 : ℚ)),
         ("total_cost_usd", JValue.num (0.01 : ℚ))]) (1.9 : ℚ)).1 hwi).trans hg,
    (token_truncation "w" (HookEvent.mk "Stop" ⟨0, 0⟩
        [("input_tokens", JValue.num (1.9 : ℚ)),
         ("total_cost_usd", JValue.num (0.01 : ℚ))]) (0.01 : ℚ)).2.2.2.2 hwc⟩

/-! Helper lemmas for the flattened-search-text characterization. -/

theorem mem_insertByKey {α : Type} (p q : String × α) (l : List (String × α)) :
    q ∈ insertByKey p l ↔ q = p ∨ q ∈ l := by
  induction l with
  | nil => simp [insertByKey]
  | cons r rest ih =>
    by_cases h : p.1 < r.1
    · simp [insertByKey, h]
    · simp [insertByKey, h, ih]
      tauto

theorem mem_sortByKey {α : Type} (q : String × α) (l : List (String × α)) :
    q ∈ sortByKey l ↔ q ∈ l := by
  induction l with
  | nil => simp [sortByKey]
  | cons r rest ih => simp [sortByKey, mem_insertByKey, ih]

theorem isStringLeaf_str (t s : String) : IsStringLeaf t (JValue.str s) ↔ t = s := by
  constructor
  · intro h
    cases h with
    | strLeaf => rfl
  · rintro rfl
    exact IsStringLeaf.strLeaf

theorem isStringLeaf_obj (t : String) (fields : List (String × JValue)) :
    IsStringLeaf t (JValue.obj fields) ↔ ∃ kv ∈ fields, IsStringLeaf t kv.2 := by
  constructor
  · intro h
    cases h with
    | inObj hm hv => exact ⟨(_, _), hm, hv⟩
  · rintro ⟨⟨k, v⟩, hm, hv⟩
    exact IsStringLeaf.inObj hm hv

theorem isStringLeaf_arr (t : String) (elems : List JValue) :
    IsStringLeaf t (JValue.arr elems) ↔ ∃ v ∈ elems, IsStringLeaf t v := by
  constructor
  · intro h
    cases h with
    | inArr hm hv => exact ⟨_, hm, hv⟩
  · rintro ⟨v, hm, hv⟩
    exact IsStringLeaf.inArr hm hv

theorem not_isStringLeaf_num (t : String) (q : ℚ) : ¬ IsStringLeaf t (JValue.num q) := by
  rintro ⟨⟩

theorem not_isStringLeaf_bool (t : String) (b : Bool) : ¬ IsStringLeaf t (JValue.bool b) := by
  rintro ⟨⟩

theorem not_isStringLeaf_null (t : String) : ¬ IsStringLeaf t JValue.null := by
  rintro ⟨⟩

/-- Membership characterization of the collected search strings: a
string is collected iff it is a non-empty string leaf of the tree. -/
theorem mem_collectStringValues (d : JValue) :
    ∀ t, t ∈ collectStringValues d ↔ IsStringLeaf t d ∧ t ≠ "" := by
  refine collectStringValues.induct
    (fun d => ∀ t, t ∈ collectStringValues d ↔ IsStringLeaf t d ∧ t ≠ "")
    (fun elems => ∀ t, t ∈ collectArrayValues elems
      ↔ (∃ v ∈ elems, IsStringLeaf t v) ∧ t ≠ "")
    (fun fields => ∀ t, (∃ l ∈ collectFieldValues fields, t ∈ l.2)
      ↔ (∃ kv ∈ fields, IsStringLeaf t kv.2) ∧ t ≠ "")
    ?_ ?_ ?_ ?_ ?_ ?_ ?_ ?_ ?_ ?_ ?_ d
  · intro t
    simp [collectStringValues, isStringLeaf_str]
  · intro s hs t
    simp only [collectStringValues, if_neg hs, List.mem_singleton, isStringLeaf_str]
    constructor
    · rintro rfl
      exact ⟨rfl, hs⟩
    · rintro ⟨rfl, _⟩
      rfl
  · intro q t
    simp [collectStringValues, not_isStringLeaf_num]
  · intro b t
    simp [collectStringValues, not_isStringLeaf_bool]
  · intro t
    simp [collectStringValues, not_isStringLeaf_null]
  · intro fields ih t
    rw [show collectStringValues (JValue.obj fields)
      = (sortByKey (collectFieldValues fields)).flatMap (fun p => p.2) from rfl]
    rw [List.mem_flatMap]
    constructor
    · rintro ⟨p, hp, ht⟩
      rw [mem_sortByKey] at hp
      have h := (ih t).mp ⟨p, hp, ht⟩
      exact ⟨(isStringLeaf_obj t fields).mpr h.1, h.2⟩
    · rintro ⟨hleaf, hne⟩
      obtain ⟨p, hp, ht⟩ := (ih t).mpr ⟨(isStringLeaf_obj t fields).mp hleaf, hne⟩
      exact ⟨p, (mem_sortByKey p _).mpr hp, ht⟩
  · intro elems ih t
    rw [show collectStringValues (JValue.arr elems) = collectArrayValues elems from rfl]
    rw [ih t, isStringLeaf_arr]
  · intro t
    simp [collectFieldValues]
  · intro k v rest ihv ihr t
    rw [show collectFieldValues ((k, v) :: rest)
      = (k, collectStringValues v) :: collectFieldValues rest from rfl]
    simp only [List.mem_cons]
    constructor
    · rintro ⟨l, hl | hl, ht⟩
      · subst hl
        have h := (ihv t).mp ht
        exact ⟨⟨(k, v), Or.inl rfl, h.1⟩, h.2⟩
      · obtain ⟨⟨kv, hkv, hleaf⟩, hne⟩ := (ihr t).mp ⟨l, hl, ht⟩
        exact ⟨⟨kv, Or.inr hkv, hleaf⟩, hne⟩
    · rintro ⟨⟨kv, hkv | hkv, hleaf⟩, hne⟩
      · subst hkv
        exact ⟨(k, collectStringValues v), Or.inl rfl, (ihv t).mpr ⟨hleaf, hne⟩⟩
      · obtain ⟨l, hl, ht⟩ := (ihr t).mpr ⟨⟨kv, hkv, hleaf⟩, hne⟩
        exact ⟨l, Or.inr hl, ht⟩
  · intro t
    simp [collectArrayValues]
  · intro v rest ihv ihr t
    rw [show collectArrayValues (v :: rest)
      = collectStringValues v ++ collectArrayValues rest from rfl]
    simp only [List.mem_append, List.mem_cons]
    constructor
    · rintro (ht | ht)
      · have h := (ihv t).mp ht
        exact ⟨⟨v, Or.inl rfl, h.1⟩, h.2⟩
      · obtain ⟨⟨w, hw, hleaf⟩, hne⟩ := (ihr t).mp ht
        exact ⟨⟨w, Or.inr hw, hleaf⟩, hne⟩
    · rintro ⟨⟨w, hw | hw, hleaf⟩, hne⟩
      · subst hw
        exact Or.inl ((ihv t).mpr ⟨hleaf, hne⟩)
      · exact Or.inr ((ihr t).mpr ⟨⟨w, hw, hleaf⟩, hne⟩)

/-- C3 (amended): the flattened search text is the space-join of
exactly the non-empty string leaves of `data` (objects visited in
sorted-key order, arrays in order, numbers/booleans/nulls skipped), so
every non-empty string leaf appears and nothing but string leaves is
ever collected — keys contribute no text of their own, though the text
can still contain a token equal to a key when some leaf equals it. -/
theorem data_flat_characterization (genId : String) (evt : HookEvent) :
    (hookEventToDocument genId evt).dataFlat
        = String.intercalate " " (collectStringValues (JValue.obj evt.data))
    ∧ ∀ t, t ∈ collectStringValues (JValue.obj evt.data)
        ↔ IsStringLeaf t (JValue.obj evt.data) ∧ t ≠ "" :=
  ⟨rfl, mem_collectStringValues _⟩

/-- C3 counterexample to the claim as stated: for `{"k": "k"}` the
flattened search text is exactly "k" — the object key "k" stands alone
as a token (because a string leaf coincides with it). -/
theorem data_flat_key_token_cex :
    extractStringValues [("k", JValue.str "k")] = "k"
    ∧ mapGet [("k", JValue.str "k")] "k" = some (JValue.str "k") :=
  ⟨rfl, rfl⟩

/-! Helper lemmas for the migration field-backfill comparison. -/

theorem find?_optEntry_self (k : String) (o : Option JValue) :
    (optEntry k o).find? (fun p => p.1 == k) = o.map (fun v => (k, v)) := by
  cases o <;> simp [optEntry, List.find?]

theorem find?_optEntry_ne (k k' : String) (o : Option JValue) (h : (k' == k) = false) :
    (optEntry k' o).find? (fun p => p.1 == k) = none := by
  cases o <;> simp [optEntry, List.find?, h]

theorem mapGet_migration_prompt (data : JObj) :
    mapGet (migrationFieldEntries data) "prompt"
      = (extractString data "prompt").map JValue.str := by
  simp [mapGet, migrationFieldEntries, List.find?_append, find?_optEntry_self,
    find?_optEntry_ne, Option.map_map]
  cases extractString data "prompt" <;> simp

theorem mapGet_migration_file_path (data : JObj) :
    mapGet (migrationFieldEntries data) "file_path"
      = ((extractNestedMap data "tool_input").bind
          (fun ti => extractString ti "file_path")).map JValue.str := by
  simp [mapGet, migrationFieldEntries, List.find?_append, find?_optEntry_self,
    find?_optEntry_ne, Option.map_map]
  simp [Function.comp_def]

theorem mapGet_migration_error_message (data : JObj) :
    mapGet (migrationFieldEntries data) "error_message"
      = (extractString data "error").map JValue.str := by
  simp [mapGet, migrationFieldEntries, List.find?_append, find?_optEntry_self,
    find?_optEntry_ne, Option.map_map]
  cases extractString data "error" <;> simp

theorem mapGet_migration_permission_mode (data : JObj) :
    mapGet (migrationFieldEntries data) "permission_mode"
      = (extractString data "permission_mode").map JValue.str := by
  simp [mapGet, migrationFieldEntries, List.find?_append, find?_optEntry_self,
    find?_optEntry_ne, Option.map_map]
  cases extractString data "permission_mode" <;> simp

theorem mapGet_migration_project_dir (data : JObj) :
    mapGet (migrationFieldEntries data) "project_dir"
      = ((extractNestedMap data "_monitor").bind
          (fun m => extractString m "project_dir")).map JValue.str := by
  simp [mapGet, migrationFieldEntries, List.find?_append, find?_optEntry_self,
    find?_optEntry_ne, Option.map_map]
  simp [Function.comp_def]

theorem mapGet_migration_has_claude_md (data : JObj) :
    mapGet (migrationFieldEntries data) "has_claude_md"
      = ((extractNestedMap data "_monitor").bind
          (fun m => extractBool m "has_claude_md")).map JValue.bool := by
  simp [mapGet, migrationFieldEntries, List.find?_append, find?_optEntry_self,
    find?_optEntry_ne, Option.map_map]
  simp [Function.comp_def]

theorem mapGet_migration_cwd (data : JObj) :
    mapGet (migrationFieldEntries data) "cwd"
      = (extractString data "cwd").map JValue.str := by
  simp [mapGet, migrationFieldEntries, List.find?_append, find?_optEntry_self,
    find?_optEntry_ne, Option.map_map]
  cases extractString data "cwd" <;> simp

/-- C2 (amended): for each field the field-backfill pass extracts
(prompt, file path, error message, permission mode, project dir,
has-claude-md flag, cwd), the staged value equals the Transform
Engine's extraction from the same `data` (staged exactly when the
extraction hits, while the transform stores the zero value on a miss);
session id, tool name and the numeric usage/cost counters are not
re-extracted by this pass. -/
theorem migration_matches_transform (genId : String) (evt : HookEvent) :
    (mapGet (migrationFieldEntries evt.data) "prompt"
        = (extractString evt.data "prompt").map JValue.str
      ∧ (hookEventToDocument genId evt).prompt
        = (extractString evt.data "prompt").getD "")
    ∧ (mapGet (migrationFieldEntries evt.data) "file_path"
        = ((extractNestedMap evt.data "tool_input").bind
            (fun ti => extractString ti "file_path")).map JValue.str
      ∧ (hookEventToDocument genId evt).filePath
        = ((extractNestedMap evt.data "tool_input").bind
            (fun ti => extractString ti "file_path")).getD "")
    ∧ (mapGet (migrationFieldEntries evt.data) "error_message"
        = (extractString evt.data "error").map JValue.str
      ∧ (hookEventToDocument genId evt).errorMessage
        = (extractString evt.data "error").getD "")
    ∧ (mapGet (migrationFieldEntries evt.data) "permission_mode"
        = (extractString evt.data "permission_mode").map JValue.str
      ∧ (hookEventToDocument genId evt).permissionMode
        = (extractString evt.data "permission_mode").getD "")
    ∧ (mapGet (migrationFieldEntries evt.data) "project_dir"
        = ((extractNestedMap evt.data "_monitor").bind
            (fun m => extractString m "project_dir")).map JValue.str
      ∧ (hookEventToDocument genId evt).projectDir
        = ((extractNestedMap evt.data "_monitor").bind
            (fun m => extractString m "project_dir")).getD "")
    ∧ (mapGet (migrationFieldEntries evt.data) "has_claude_md"
        = ((extractNestedMap evt.data "_monitor").bind
            (fun m => extractBool m "has_claude_md")).map JValue.bool
      ∧ (hookEventToDocument genId evt).hasClaudeMD
        = ((extractNestedMap evt.data "_monitor").bind
            (fun m => extractBool m "has_claude_md")).getD false)
    ∧ (mapGet (migrationFieldEntries evt.data) "cwd"
        = (extractString evt.data "cwd").map JValue.str
      ∧ (hookEventToDocument genId evt).cwd
        = (extractString evt.data "cwd").getD "") :=
  ⟨⟨mapGet_migration_prompt _, rfl⟩, ⟨mapGet_migration_file_path _, rfl⟩,
   ⟨mapGet_migration_error_message _, rfl⟩, ⟨mapGet_migration_permission_mode _, rfl⟩,
   ⟨mapGet_migration_project_dir _, rfl⟩, ⟨mapGet_migration_has_claude_md _, rfl⟩,
   ⟨mapGet_migration_cwd _, rfl⟩⟩

/-- C2 counterexample to the claim as stated: for
`{"session_id": "sess-1", "tool_name": "Write", "input_tokens": 5}` the
transform extracts a session id, a tool name and an input-token count,
but the field-backfill pass stages only the record id — it computes no
value at all for those fields. -/
theorem migration_skips_fields_cex :
    (hookEventToDocument "cex2" (HookEvent.mk "PreToolUse" ⟨0, 0⟩
        [("session_id", JValue.str "sess-1"), ("tool_name", JValue.str "Write"),
         ("input_tokens", JValue.num 5)])).sessionId = "sess-1"
    ∧ (hookEventToDocument "cex2" (HookEvent.mk "PreToolUse" ⟨0, 0⟩
        [("session_id", JValue.str "sess-1"), ("tool_name", JValue.str "Write"),
         ("input_tokens", JValue.num 5)])).toolName = "Write"
    ∧ (hookEventToDocument "cex2" (HookEvent.mk "PreToolUse" ⟨0, 0⟩
        [("session_id", JValue.str "sess-1"), ("tool_name", JValue.str "Write"),
         ("input_tokens", JValue.num 5)])).inputTokens = 5
    ∧ extractMigrationFields ⟨some "d1", some (JValue.obj
        [("session_id", JValue.str "sess-1"), ("tool_name", JValue.str "Write"),
         ("input_tokens", JValue.num 5)])⟩ = some [("id", JValue.str "d1")]
    ∧ mapGet (migrationFieldEntries
        [("session_id", JValue.str "sess-1"), ("tool_name", JValue.str "Write"),
         ("input_tokens", JValue.num 5)]) "session_id" = none
    ∧ mapGet (migrationFieldEntries
        [("session_id", JValue.str "sess-1"), ("tool_name", JValue.str "Write"),
         ("input_tokens", JValue.num 5)]) "tool_name" = none
    ∧ mapGet (migrationFieldEntries
        [("session_id", JValue.str "sess-1"), ("tool_name", JValue.str "Write"),
         ("input_tokens", JValue.num 5)]) "input_tokens" = none :=
  ⟨rfl, rfl, rfl, rfl, rfl, rfl, rfl⟩

/-- C8: the field-backfill loop stops immediately when the cancellation
signal is set at the top of an iteration, or when the page fetch or the
batch write fails — in every case returning the cumulative processed
count accumulated so far together with the error, with all later pages
ignored; a successful non-final page adds its record count and
continues with the advanced offset. -/
theorem migrate_stops_on_error (bs off tot : ℤ) (e : String)
    (step : PageStep) (rest : List PageStep) :
    (step.cancelled = some e →
      migrateGo bs off tot (step :: rest) = (tot, some e))
    ∧ (step.cancelled = none → step.fetch = Except.error e →
      migrateGo bs off tot (step :: rest) = (tot, some e))
    ∧ (∀ page, step.cancelled = none → step.fetch = Except.ok page →
      page.results ≠ [] → migrationUpdates page.results ≠ [] →
      step.write = Except.error e →
      migrateGo bs off tot (step :: rest) = (tot, some e))
    ∧ (∀ page, step.cancelled = none → step.fetch = Except.ok page →
      page.results ≠ [] →
      (migrationUpdates page.results = [] ∨ step.write = Except.ok ()) →
      migrateGo bs off tot (step :: rest)
        = if page.total ≤ off + bs then (tot + (page.results.length : ℤ), none)
          else migrateGo bs (off + bs) (tot + (page.results.length : ℤ)) rest) := by
  refine ⟨fun h => ?_, fun hc hf => ?_, fun page hc hf hres hupd hw => ?_,
    fun page hc hf hres hok => ?_⟩
  · simp [migrateGo, h]
  · simp [migrateGo, hc, hf]
  · have hlen : page.results.length ≠ 0 := fun h0 => hres (List.length_eq_zero.mp h0)
    have hpos : 0 < (migrationUpdates page.results).length :=
      List.length_pos.mpr hupd
    simp [migrateGo, hc, hf, hlen, hpos, hw]
  · have hlen : page.results.length ≠ 0 := fun h0 => hres (List.length_eq_zero.mp h0)
    cases hok with
    | inl hupd => simp [migrateGo, hc, hf, hlen, hupd]
    | inr hw =>
      by_cases hupd : 0 < (migrationUpdates page.results).length
      · simp [migrateGo, hc, hf, hlen, hupd, hw]
      · simp [migrateGo, hc, hf, hlen, hupd]

/-- C8 witness: a successful page of two records followed by a failing
fetch returns (2, error) and never looks at the trailing step; a
cancellation at the top of an iteration returns the progress so far
with the cancellation error. -/
theorem migrate_stops_on_error_witness :
    migrateGo 2 0 0
      [⟨none, Except.ok ⟨[⟨some "h1", none⟩, ⟨some "h2", none⟩], 5⟩, Except.ok ()⟩,
       ⟨none, Except.error "boom", Except.ok ()⟩,
       ⟨some "junk", Except.error "junk", Except.error "junk"⟩]
      = (2, some "boom")
    ∧ migrateGo 2 2 7
      [⟨some "context canceled", Except.error "x", Except.ok ()⟩]
      = (7, some "context canceled") := by
  constructor
  · have h4 := (migrate_stops_on_error 2 0 0 "boom"
      ⟨none, Except.ok ⟨[⟨some "h1", none⟩, ⟨some "h2", none⟩], 5⟩, Except.ok ()⟩
      [⟨none, Except.error "boom", Except.ok ()⟩,
       ⟨some "junk", Except.error "junk", Except.error "junk"⟩]).2.2.2
      ⟨[⟨some "h1", none⟩, ⟨some "h2", none⟩], 5⟩ rfl rfl (by simp) (Or.inr rfl)
    rw [h4]
    have h2 := (migrate_stops_on_error 2 2 2 "boom"
      ⟨none, Except.error "boom", Except.ok ()⟩
      [⟨some "junk", Except.error "junk", Except.error "junk"⟩]).2.1 rfl rfl
    norm_num
    exact h2
  · exact (migrate_stops_on_error 2 2 7 "context canceled"
      ⟨some "context canceled", Except.error "x", Except.ok ()⟩ []).1 rfl
